import Mathlib

/-!
Verification of the MenoQueen quiz analytics core (`app.py`, `slack_report.py`).

The development shallowly embeds the funnel reconstruction and metric
aggregation engine: records are Lean structures, dataframes are lists of
records, the pandas column operations become list operations, and float
arithmetic is modelled with exact rationals (`ℚ`), with Python's
`round(x, 1)` modelled as exact rational rounding to one decimal place
(half up).  `app.py` and `slack_report.py` contain line-identical copies of
`compute_funnel` and of the step metadata; each is embedded once below.
-/

/-! ## Quiz metadata (app.py lines 63-93, slack_report.py lines 38-68) -/

/-- QUIZ_STEPS_ORDER: the ordered, fixed list of the 17 step identifiers. -/
def QUIZ_STEPS_ORDER : List String :=
  ["q1", "q2", "q3", "q4", "q5", "q6", "q7", "q8", "q9", "q10", "q12",
   "email-capture", "preparing-summary",
   "result-1", "result-2", "result-3",
   "product-recommendation"]

/-- STEP_LABELS: display label per step identifier. -/
def STEP_LABELS : List (String × String) :=
  [("q1", "Q1 - Primary Symptom"),
   ("q2", "Q2 - Frequency"),
   ("q3", "Q3 - Secondary Symptom"),
   ("q4", "Q4 - Intimate Health"),
   ("q5", "Q5 - Emotional"),
   ("q6", "Q6 - Impact"),
   ("q7", "Q7 - Diet"),
   ("q8", "Q8 - Supplements"),
   ("q9", "Q9 - Stage"),
   ("q10", "Q10 - Age"),
   ("q12", "Q12 - Relief"),
   ("email-capture", "Email Capture"),
   ("preparing-summary", "Calculating"),
   ("result-1", "Result 1"),
   ("result-2", "Result 2"),
   ("result-3", "Result 3"),
   ("product-recommendation", "Product Page")]

/-- STEP_LABELS.get(step_id, step_id). -/
def step_label (s : String) : String := (STEP_LABELS.lookup s).getD s

/-- QUIZ_Q_KEYS: the 11 tracked question keys (dataframe column names). -/
def QUIZ_Q_KEYS : List String :=
  ["quiz_q1", "quiz_q2", "quiz_q3", "quiz_q4", "quiz_q5",
   "quiz_q6", "quiz_q7", "quiz_q8", "quiz_q9", "quiz_q10", "quiz_q12"]

/-- Python `step_index = {s: i for i, s in enumerate(QUIZ_STEPS_ORDER)}` read via
`step_index.get(key, dflt)`. -/
def step_index_get (s : String) (dflt : Int) : Int :=
  match QUIZ_STEPS_ORDER.findIdx? (fun t => t == s) with
  | some i => (i : Int)
  | none => dflt

/-- Python `step_index[s]` for a key known to be present (direct dict indexing,
used only on members of QUIZ_STEPS_ORDER inside compute_funnel). -/
def step_index_at (s : String) : Nat :=
  QUIZ_STEPS_ORDER.findIdx (fun t => t == s)

/-- Python `[s for s in QUIZ_STEPS_ORDER if s.startswith("q")]`; for the
one-character prefix "q" the startswith test is a head-character test. -/
def q_steps : List String :=
  QUIZ_STEPS_ORDER.filter (fun s =>
    match s.toList with
    | c :: _ => c = 'q'
    | [] => false)

/-! ## String helpers (Python str.strip, str.split(","), str.title, _pretty) -/

/-- Whitespace stripped by Python str.strip() (ASCII subset; all whitespace
occurring in the data is ASCII). -/
def pyIsSpace (c : Char) : Bool :=
  c = ' ' || c = '\t' || c = '\n' || c = '\r'

/-- Python str.strip(): drop leading and trailing whitespace. -/
def pyStrip (cs : List Char) : List Char :=
  ((cs.dropWhile pyIsSpace).reverse.dropWhile pyIsSpace).reverse

/-- Python str.split(","): split at every comma, keeping empty fields, with
"".split(",") = [""]. -/
def splitComma : List Char → List (List Char)
  | [] => [[]]
  | c :: rest =>
    if c = ',' then [] :: splitComma rest
    else
      match splitComma rest with
      | t :: ts => (c :: t) :: ts
      | [] => [[c]]

/-- Python str.title() worker: uppercase a letter that does not follow a
letter, lowercase a letter that does; the flag records whether the previous
character was a letter. -/
def pyTitleAux : Bool → List Char → List Char
  | _, [] => []
  | prevAlpha, c :: rest =>
    (if c.isAlpha then (if prevAlpha then c.toLower else c.toUpper) else c)
      :: pyTitleAux c.isAlpha rest

/-- Python str.title(). -/
def pyTitle (cs : List Char) : List Char := pyTitleAux false cs

/-- Case-insensitive character comparison against a lowercase letter
(re.IGNORECASE in the source's second and third patterns). -/
def charLowerIs (c d : Char) : Bool := c.toLower = d

/-- Regex r"^(\d\x7b2\x7d)_(\d\x7b2\x7d)$" of app.py line 99: two digits,
an underscore, two digits. -/
def matchAgeRange (cs : List Char) : Option (Char × Char × Char × Char) :=
  match cs with
  | [a, b, '_', c, d] =>
    if a.isDigit && b.isDigit && c.isDigit && d.isDigit then some (a, b, c, d)
    else none
  | _ => none

/-- Regex r"^(\d\x7b2\x7d)_plus$" with IGNORECASE of app.py line 102. -/
def matchAgePlus (cs : List Char) : Option (Char × Char) :=
  match cs with
  | [a, b, '_', c, d, e, f] =>
    if a.isDigit && b.isDigit
        && charLowerIs c 'p' && charLowerIs d 'l' && charLowerIs e 'u'
        && charLowerIs f 's' then
      some (a, b)
    else none
  | _ => none

/-- Regex r"^under_(\d\x7b2\x7d)$" with IGNORECASE of app.py line 105. -/
def matchAgeUnder (cs : List Char) : Option (Char × Char) :=
  match cs with
  | [u, n, d, e, r, '_', a, b] =>
    if charLowerIs u 'u' && charLowerIs n 'n' && charLowerIs d 'd'
        && charLowerIs e 'e' && charLowerIs r 'r' && a.isDigit && b.isDigit then
      some (a, b)
    else none
  | _ => none

/-- Bytes standing between the two groups in the f-string of app.py line 101.
The source file holds the byte sequence c3 a2 e2 82 ac e2 80 9c, i.e. the
three characters U+00E2, U+20AC, U+201C (an en dash that was UTF-8 encoded
twice), not a single en dash. -/
def mojibakeDash : List Char := "\u00E2\u20AC\u201C".toList

/-- The _pretty display normalizer of app.py lines 96-108.  The joiner
between the two age-range groups is the literal byte sequence found in the
source (see mojibakeDash).  The final branch is
value.replace("_", " ").replace("-", " ").title(). -/
def _pretty (value : String) : String :=
  match matchAgeRange value.toList with
  | some (a, b, c, d) => String.mk ([a, b] ++ mojibakeDash ++ [c, d])
  | none =>
    match matchAgePlus value.toList with
    | some (a, b) => String.mk [a, b, '+']
    | none =>
      match matchAgeUnder value.toList with
      | some (a, b) => String.mk ("Under ".toList ++ [a, b])
      | none =>
        String.mk (pyTitle ((value.toList.map
          (fun ch => if ch = '_' then ' ' else ch)).map
          (fun ch => if ch = '-' then ' ' else ch)))

/-! ## Normalized records (the rows produced by profiles_to_dataframe /
profiles_to_df) and the funnel engine (compute_funnel, app.py lines 321-361
= slack_report.py lines 135-175) -/

/-- One normalized dataframe row.  Text fields default to the empty string,
the completion flag to false.  `created` holds the creation timestamp after
the pd.to_datetime(errors="coerce") pass, abstracted to a UTC date (an
integer day number), with none standing for NaT (missing or unparsable).
Answer cells hold the raw property value: `none` models a JSON null stored
under the key, `some ""` the default for a missing key.
`quiz_completed_at` exists only in the app.py dataframe and is never read
by any of the computations below. -/
structure Record where
  email : String
  created : Option Int
  quiz_completed : Bool
  quiz_completed_at : Option String
  current_step : String
  quiz_q1 : Option String
  quiz_q2 : Option String
  quiz_q3 : Option String
  quiz_q4 : Option String
  quiz_q5 : Option String
  quiz_q6 : Option String
  quiz_q7 : Option String
  quiz_q8 : Option String
  quiz_q9 : Option String
  quiz_q10 : Option String
  quiz_q12 : Option String
deriving DecidableEq

/-- Python `row.get(key, dflt)` on the string-typed columns of a dataframe
row.  The columns are "email", "current_step" and the eleven QUIZ_Q_KEYS
names "quiz_q1".."quiz_q12"; any other key — in particular the bare step
identifiers "q1".."q12" that infer_rank passes in — is not a column, so the
lookup returns the supplied default. -/
def rowGetD (r : Record) (key : String) (dflt : Option String) : Option String :=
  if key = "email" then some r.email
  else if key = "current_step" then some r.current_step
  else if key = "quiz_q1" then r.quiz_q1
  else if key = "quiz_q2" then r.quiz_q2
  else if key = "quiz_q3" then r.quiz_q3
  else if key = "quiz_q4" then r.quiz_q4
  else if key = "quiz_q5" then r.quiz_q5
  else if key = "quiz_q6" then r.quiz_q6
  else if key = "quiz_q7" then r.quiz_q7
  else if key = "quiz_q8" then r.quiz_q8
  else if key = "quiz_q9" then r.quiz_q9
  else if key = "quiz_q10" then r.quiz_q10
  else if key = "quiz_q12" then r.quiz_q12
  else dflt

/-- The rank inference of compute_funnel (app.py lines 325-340 =
slack_report.py lines 139-154): explicit current-step marker first; then the
maximum rank over q_steps whose looked-up value is neither "" nor None; then
the identity correction raising a non-negative rank to the email-capture
rank.  Note the loop looks up row.get(qs, "") with qs drawn from q_steps
("q1".."q12"), while the dataframe's answer columns are named
"quiz_q1".."quiz_q12". -/
def infer_rank (r : Record) : Int :=
  let explicit : Int :=
    match rowGetD r "current_step" (some "") with
    | some s => step_index_get s (-1)
    | none => -1
  if 0 ≤ explicit then explicit
  else
    let best : Int := q_steps.foldl (fun best qs =>
      let val := rowGetD r qs (some "")
      if val ≠ some "" ∧ val ≠ none then
        let rank := step_index_get qs (-1)
        if best < rank then rank else best
      else best) (-1)
    let emailTruthy : Bool :=
      match rowGetD r "email" (some "") with
      | some s => s != ""
      | none => false
    if emailTruthy ∧ 0 ≤ best then
      let ec_rank := step_index_get "email-capture" best
      if best < ec_rank then ec_rank else best
    else best

/-- Python `last_rank = len(QUIZ_STEPS_ORDER) - 1`. -/
def last_rank : Int := (QUIZ_STEPS_ORDER.length : Int) - 1

/-- The step_rank column: `df["step_rank"] = df.apply(infer_rank, axis=1)`. -/
def step_ranks (df : List Record) : List Int := df.map infer_rank

/-- The completion override applied to the step_rank column:
`df.loc[df["quiz_completed"] == True, "step_rank"] = last_rank`. -/
def override_completed (df : List Record) (ranks : List Int) : List Int :=
  List.zipWith (fun r k => if r.quiz_completed = true then last_rank else k)
    df ranks

/-- The step_rank column after both passes. -/
def final_ranks (df : List Record) : List Int :=
  override_completed df (step_ranks df)

/-- Python `round(q, 1)`, modelled as exact rational rounding to one decimal
place, half up (the source rounds an IEEE double; no verified property
depends on the behaviour at exact decimal ties). -/
def round1 (q : ℚ) : ℚ := ((⌊q * 10 + 1 / 2⌋ : ℤ) : ℚ) / 10

/-- One row of the dataframe returned by compute_funnel. -/
structure FunnelRow where
  step : String
  label : String
  count : Nat
  pct : ℚ
deriving DecidableEq

/-- compute_funnel (app.py lines 321-361 = slack_report.py lines 135-175):
empty input yields the empty dataframe; otherwise one row per configured
step with the count of records whose final rank reaches the step's rank, and
that count as a rounded percentage of the total. -/
def compute_funnel (df : List Record) : List FunnelRow :=
  if df.isEmpty then []
  else
    let ranks := final_ranks df
    let total := df.length
    QUIZ_STEPS_ORDER.map (fun step_id =>
      let rank := step_index_at step_id
      let reached := ranks.countP (fun k => decide ((rank : Int) ≤ k))
      { step := step_id
        label := step_label step_id
        count := reached
        pct := if total ≠ 0 then round1 ((reached : ℚ) / (total : ℚ) * 100) else 0 })

/-! ## Drop-off computations (_render_full_funnel_waterfall, app.py lines
1148-1169, and _find_biggest_dropoff, slack_report.py lines 233-246) -/

/-- The drop_pct values computed along steps_data in
_render_full_funnel_waterfall: prev_count starts as None; each row's
drop_pct is 0 unless prev_count is set and positive, in which case it is
round(lost / prev_count * 100, 1) with lost = prev_count - count.  Fields of
steps_data not used by any verified property (label, ga4_count, lost,
severity) are not materialized. -/
def waterfall_drop_pcts : Option Nat → List FunnelRow → List ℚ
  | _, [] => []
  | prev, r :: rest =>
    (match prev with
     | some p =>
       if 0 < p then round1 (((p : ℚ) - (r.count : ℚ)) / (p : ℚ) * 100) else 0
     | none => 0) :: waterfall_drop_pcts (some r.count) rest

/-- The loop of _find_biggest_dropoff: state (biggest_label, biggest_drop,
prev_count), updating the pair only when prev_count is set, positive, and
the rounded drop strictly exceeds the best so far. -/
def findBiggestAux : List FunnelRow → String → ℚ → Option Nat → String × ℚ
  | [], lbl, best, _ => (lbl, best)
  | r :: rest, lbl, best, prev =>
    match prev with
    | some p =>
      if 0 < p then
        let dp := round1 (((p : ℚ) - (r.count : ℚ)) / (p : ℚ) * 100)
        if best < dp then findBiggestAux rest r.label dp (some r.count)
        else findBiggestAux rest lbl best (some r.count)
      else findBiggestAux rest lbl best (some r.count)
    | none => findBiggestAux rest lbl best (some r.count)

/-- _find_biggest_dropoff (slack_report.py lines 233-246). -/
def find_biggest_dropoff (funnel : List FunnelRow) : String × ℚ :=
  findBiggestAux funnel "" 0 none

/-- The (label, rounded drop-off) pairs of exactly those transitions that
_find_biggest_dropoff considers: adjacent pairs whose predecessor count is
strictly positive, in sequence order. -/
def dropCandidatesAux : Option Nat → List FunnelRow → List (String × ℚ)
  | _, [] => []
  | prev, r :: rest =>
    (match prev with
     | some p =>
       if 0 < p then [(r.label, round1 (((p : ℚ) - (r.count : ℚ)) / (p : ℚ) * 100))]
       else []
     | none => []) ++ dropCandidatesAux (some r.count) rest

/-- Considered transitions of a whole funnel. -/
def dropCandidates (funnel : List FunnelRow) : List (String × ℚ) :=
  dropCandidatesAux none funnel

/-- The accumulator discipline of _find_biggest_dropoff, abstracted over the
candidate list: keep the incumbent unless a candidate strictly exceeds it. -/
def pick : List (String × ℚ) → String → ℚ → String × ℚ
  | [], lbl, best => (lbl, best)
  | (l, dp) :: rest, lbl, best =>
    if best < dp then pick rest l dp else pick rest lbl best

/-! ## Answer distributions (compute_answer_distribution, app.py lines
307-318) -/

/-- Tokens of one raw cell value: split at commas, strip each part (the
parts are filtered against "" and prettified by the caller). -/
def cell_tokens (v : String) : List String :=
  (splitComma v.toList).map (fun part => String.mk (pyStrip part))

/-- First-occurrence-ordered distinct elements, as iterated by
collections.Counter (a dict preserving insertion order). -/
def uniqueInOrder : List String → List String
  | [] => []
  | a :: rest => a :: uniqueInOrder (rest.filter (fun b => b ≠ a))
termination_by l => l.length
decreasing_by simp_wf; exact Nat.lt_succ_of_le (List.length_filter_le _ _)

/-- collections.Counter(items).items(): each distinct item in first
occurrence order with its multiplicity. -/
def counter (items : List String) : List (String × Nat) :=
  (uniqueInOrder items).map (fun a => (a, items.count a))

/-- compute_answer_distribution (app.py lines 307-318) on one extracted
column: drop nulls, drop empty strings, comma-split and strip each value
keeping non-empty tokens prettified by _pretty, count, and sort by count
descending (the pandas sort; only the multiset of rows is relied upon
below). -/
def compute_answer_distribution (column : List (Option String)) : List (String × Nat) :=
  let vals := column.filterMap id
  let vals2 := vals.filter (fun v => v ≠ "")
  let items := vals2.flatMap (fun v =>
    (cell_tokens v).filterMap (fun part =>
      if part ≠ "" then some (_pretty part) else none))
  (counter items).mergeSort (fun a b => b.2 ≤ a.2)

/-- Column extraction df[col] for the eleven tracked question keys (the only
columns the program passes to compute_answer_distribution; any other key
would raise a KeyError on the real dataframe and is mapped to a null column
here). -/
def df_col (df : List Record) (col : String) : List (Option String) :=
  df.map (fun r => rowGetD r col none)

/-- Reference quantity of the distribution-totality claim: the number of
non-empty trimmed comma-separated tokens across all non-null raw values of
the column. -/
def total_nonempty_tokens (column : List (Option String)) : Nat :=
  ((column.filterMap id).map (fun v =>
    ((cell_tokens v).filter (fun part => part ≠ "")).length)).sum

/-! ## Date-range filters (_filter_by_dates, app.py lines 368-372, and
filter_by_date, slack_report.py lines 128-132).  The mask
(df["created"].dt.date >= start) & (df["created"].dt.date <= end) is false
at NaT rows, so filtering keeps exactly the rows with a parsed date inside
the inclusive range. -/

/-- _filter_by_dates of app.py: when the frame is empty or every created
timestamp is NaT, return the frame UNCHANGED; otherwise apply the mask. -/
def _filter_by_dates (df : List Record) (start stop : Int) : List Record :=
  if df.isEmpty || df.all (fun r => r.created.isNone) then df
  else
    df.filter (fun r =>
      match r.created with
      | some d => decide (start ≤ d) && decide (d ≤ stop)
      | none => false)

/-- filter_by_date of slack_report.py: when the frame is empty or every
created timestamp is NaT, return df.iloc[0:0] — the EMPTY frame; otherwise
apply the same mask. -/
def filter_by_date (df : List Record) (start stop : Int) : List Record :=
  if df.isEmpty || df.all (fun r => r.created.isNone) then []
  else
    df.filter (fun r =>
      match r.created with
      | some d => decide (start ≤ d) && decide (d ≤ stop)
      | none => false)

/-! ## Raw profiles and the record normalizer (profiles_to_dataframe,
app.py lines 154-172; profiles_to_df, slack_report.py lines 108-125, is the
same construction minus the quiz_completed_at column) -/

/-- Loosely typed JSON-like values as delivered by the profile source. -/
inductive JVal where
  | null : JVal
  | str : String → JVal
  | bool : Bool → JVal
  | num : Int → JVal
  | arr : List JVal → JVal
  | dict : List (String × JVal) → JVal

/-- Python `v.get(key, dflt)`: returns the stored value (or the default for
a missing key) when v is a dict, and raises AttributeError otherwise —
calling .get on a non-dict (None, str, int, list, ...) is the failure mode
of the normalizer on malformed nesting. -/
def pyGet (v : JVal) (key : String) (dflt : JVal) : Except String JVal :=
  match v with
  | .dict es =>
    .ok (match es.lookup key with
         | some x => x
         | none => dflt)
  | _ => .error "AttributeError"

/-- The `for qk in QUIZ_Q_KEYS: row[qk] = props.get(qk, "")` loop. -/
def getAnswers (props : JVal) : List String → Except String (List (String × JVal))
  | [] => .ok []
  | qk :: rest => do
    let v ← pyGet props qk (.str "")
    let tail ← getAnswers props rest
    .ok ((qk, v) :: tail)

/-- One raw dataframe row as built by profiles_to_dataframe, before the
pd.to_datetime coercion of the created column.  Values are stored as
delivered (the normalizer performs no type coercion of its own). -/
structure RawRow where
  email : JVal
  created : JVal
  quiz_completed : JVal
  quiz_completed_at : JVal
  current_step : JVal
  answers : List (String × JVal)

/-- The per-profile body of profiles_to_dataframe (app.py lines 156-168):
attrs = p.get("attributes", \x7b\x7d); props = attrs.get("properties",
\x7b\x7d); then one field per column, each with its documented default. -/
def profile_to_row (p : JVal) : Except String RawRow := do
  let attrs ← pyGet p "attributes" (.dict [])
  let props ← pyGet attrs "properties" (.dict [])
  let email ← pyGet attrs "email" (.str "")
  let created ← pyGet attrs "created" (.str "")
  let completed ← pyGet props "Quiz Completed" (.bool false)
  let completedAt ← pyGet props "quiz_completed_at" (.str "")
  let curStep ← pyGet props "quiz_current_step" (.str "")
  let answers ← getAnswers props QUIZ_Q_KEYS
  .ok { email := email
        created := created
        quiz_completed := completed
        quiz_completed_at := completedAt
        current_step := curStep
        answers := answers }

/-- Well-shaped raw profiles: the profile is a dict, its "attributes" entry
(when present) is a dict, and that dict's "properties" entry (when present)
is a dict.  This is the shape on which the normalizer cannot raise. -/
def profile_well_shaped (p : JVal) : Bool :=
  match p with
  | .dict pes =>
    match pes.lookup "attributes" with
    | none => true
    | some (.dict aes) =>
      (match aes.lookup "properties" with
       | none => true
       | some (.dict _) => true
       | some _ => false)
    | some _ => false
  | _ => false

/-- The row produced from a profile with no usable nesting: every text field
is the empty string, the completion flag is false. -/
def default_raw_row : RawRow :=
  { email := .str ""
    created := .str ""
    quiz_completed := .bool false
    quiz_completed_at := .str ""
    current_step := .str ""
    answers := QUIZ_Q_KEYS.map (fun qk => (qk, .str "")) }

/-- Model of the library call pd.to_datetime(x, errors="coerce") on one
cell of the created column: strings shaped like an ISO-8601 date parse,
everything else — in particular the empty-string default and non-string
cells — coerces to null (NaT). -/
def to_datetime_coerce (v : JVal) : Option String :=
  match v with
  | .str s =>
    (match s.toList with
     | y1 :: y2 :: y3 :: y4 :: '-' :: m1 :: m2 :: '-' :: d1 :: d2 :: _ =>
       if y1.isDigit && y2.isDigit && y3.isDigit && y4.isDigit
           && m1.isDigit && m2.isDigit && d1.isDigit && d2.isDigit then
         some s
       else none
     | _ => none)
  | _ => none

/-! ## Concrete records and funnels used by witnesses and counterexamples -/

/-- A record matching the identity-correction scenario: non-empty identity,
no recognized explicit step marker, completion flag false, and a non-empty
answer for quiz_q1 (answer-derived rank 0 per the spec, below the
email-capture rank 11). -/
def rC3 : Record :=
  { email := "anon@example.com"
    created := none
    quiz_completed := false
    quiz_completed_at := none
    current_step := ""
    quiz_q1 := some "hot_flashes"
    quiz_q2 := some ""
    quiz_q3 := some ""
    quiz_q4 := some ""
    quiz_q5 := some ""
    quiz_q6 := some ""
    quiz_q7 := some ""
    quiz_q8 := some ""
    quiz_q9 := some ""
    quiz_q10 := some ""
    quiz_q12 := some "" }

/-- A completed record carrying a contradictory explicit step marker ("q3",
rank 2) and partial answers. -/
def rCompleted : Record :=
  { email := "user@example.com"
    created := some 100
    quiz_completed := true
    quiz_completed_at := some "2024-01-01T00:00:00Z"
    current_step := "q3"
    quiz_q1 := some "hot_flashes"
    quiz_q2 := some "daily"
    quiz_q3 := some ""
    quiz_q4 := some ""
    quiz_q5 := some ""
    quiz_q6 := some ""
    quiz_q7 := some ""
    quiz_q8 := some ""
    quiz_q9 := some ""
    quiz_q10 := some ""
    quiz_q12 := some "" }

/-- A record whose creation timestamp failed to parse (NaT). -/
def rNull : Record :=
  { email := ""
    created := none
    quiz_completed := false
    quiz_completed_at := none
    current_step := ""
    quiz_q1 := some ""
    quiz_q2 := some ""
    quiz_q3 := some ""
    quiz_q4 := some ""
    quiz_q5 := some ""
    quiz_q6 := some ""
    quiz_q7 := some ""
    quiz_q8 := some ""
    quiz_q9 := some ""
    quiz_q10 := some ""
    quiz_q12 := some "" }

/-- A record with a parsed creation date (day 5). -/
def rDated : Record :=
  { email := "dated@example.com"
    created := some 5
    quiz_completed := false
    quiz_completed_at := none
    current_step := "q1"
    quiz_q1 := some ""
    quiz_q2 := some ""
    quiz_q3 := some ""
    quiz_q4 := some ""
    quiz_q5 := some ""
    quiz_q6 := some ""
    quiz_q7 := some ""
    quiz_q8 := some ""
    quiz_q9 := some ""
    quiz_q10 := some ""
    quiz_q12 := some "" }

/-- A two-row funnel whose first count is 0 (zero-division guard input). -/
def fRowsZero : List FunnelRow :=
  [{ step := "q1", label := "Q1 - Primary Symptom", count := 0, pct := 0 },
   { step := "q2", label := "Q2 - Frequency", count := 7, pct := 0 }]

/-- A two-row funnel with equal positive counts: its only considered
transition has drop-off 0. -/
def fRowsFlat : List FunnelRow :=
  [{ step := "q1", label := "Q1 - Primary Symptom", count := 1, pct := 100 },
   { step := "q2", label := "Q2 - Frequency", count := 1, pct := 100 }]

/-- A two-row funnel losing 3 of 4 users on its only transition (drop-off
75%). -/
def fRowsDrop : List FunnelRow :=
  [{ step := "q1", label := "Q1 - Primary Symptom", count := 4, pct := 100 },
   { step := "q2", label := "Q2 - Frequency", count := 1, pct := 25 }]

/-- A raw profile whose "attributes" entry is present but not a dict. -/
def pMalformed : JVal := .dict [("attributes", .str "oops")]

/-- A raw profile with a well-shaped attributes dict and nothing else. -/
def pSmall : JVal := .dict [("attributes", .dict [("email", .str "x@y.z")])]

/-! ## Helper lemmas -/

/-- Zipping a list with its own map is a map of the combined function. -/
theorem zipWith_self_map {α β γ : Type} (f : α → β → γ) (g : α → β) :
    ∀ l : List α, List.zipWith f l (l.map g) = l.map (fun a => f a (g a)) := by
  intro l
  induction l with
  | nil => rfl
  | cons a t ih => simp [ih]

/-- The completion override composed with the rank pass, pointwise. -/
theorem final_ranks_eq_map (df : List Record) :
    final_ranks df
      = df.map (fun r => if r.quiz_completed = true then last_rank else infer_rank r) := by
  unfold final_ranks override_completed step_ranks
  exact zipWith_self_map _ _ df

/-! ## C4: compute_funnel on the empty record set -/

/-- C4 counterexample: on the empty record set compute_funnel returns no
rows at all, not the 17-entry zero-count step list the claim requires. -/
theorem compute_funnel_empty_not_full_list :
    (compute_funnel ([] : List Record)).length ≠ 17 := by decide

/-- C4 (amended): compute_funnel applied to the empty record set returns the
empty funnel (zero rows); its consumers test for emptiness instead of
relying on one entry per configured step. -/
theorem compute_funnel_empty_returns_empty :
    compute_funnel ([] : List Record) = [] := rfl

/-! ## C2: the completion override -/

/-- C2: the last step is "product-recommendation" at rank 16, and every
record whose completion flag is true receives exactly that rank in the
step_rank column computed by compute_funnel, regardless of its explicit
step marker, identity, or answer fields (the override is applied after
rank inference and unconditionally overwrites it). -/
theorem compute_funnel_completion_override :
    (last_rank = 16 ∧ QUIZ_STEPS_ORDER[16]? = some "product-recommendation") ∧
    ∀ (df : List Record) (i : Nat) (r : Record),
      df[i]? = some r → r.quiz_completed = true →
      (final_ranks df)[i]? = some last_rank := by
  refine ⟨by decide, ?_⟩
  intro df i r hget hcomp
  rw [final_ranks_eq_map, List.getElem?_map, hget]
  simp [hcomp]

/-- C2 witness: a concrete completed record whose explicit marker points at
"q3" (rank 2) still lands at rank 16. -/
theorem compute_funnel_completion_override_witness :
    (final_ranks [rCompleted])[0]? = some last_rank :=
  compute_funnel_completion_override.2 [rCompleted] 0 rCompleted rfl rfl

/-! ## C3: the identity correction never fires (answer lookups miss) -/

/-- C3 evaluation at the failing input: rC3 has a non-empty identity, no
recognized explicit marker, completion false, and a non-empty quiz_q1
answer, so per the spec its answer-derived rank is 0 and the final rank must
be raised to the email-capture rank 11; the code instead yields the
unranked sentinel -1 (and a funnel counting it nowhere), because infer_rank
reads the answers under the step ids "q1".."q12" while the dataframe columns
are named "quiz_q1".."quiz_q12". -/
theorem compute_funnel_identity_correction_dead :
    rC3.quiz_q1 = some "hot_flashes" ∧ rC3.email ≠ "" ∧
    rC3.current_step = "" ∧ rC3.quiz_completed = false ∧
    step_index_get "email-capture" (-1) = 11 ∧
    infer_rank rC3 = -1 ∧ (final_ranks [rC3])[0]? = some (-1) ∧
    (compute_funnel [rC3]).map FunnelRow.count
      = [0, 0, 0, 0, 0, 0, 0, 0, 0, 0, 0, 0, 0, 0, 0, 0, 0] := by
  refine ⟨rfl, by decide, rfl, rfl, by decide, by decide, by decide, by decide⟩

/-! ## C8: the age-range display text -/

/-- C8 evaluation at the failing input: _pretty("55_64") matches the
NN_MM age-range pattern, but the joiner baked into the source is the
double-encoded byte sequence U+00E2 U+20AC U+201C, so the rendered text is
"55â€“64" (mojibake), not the claimed "55–64" with a single en dash
U+2013. -/
theorem pretty_age_range_mojibake :
    _pretty "55_64" = "55â€“64" ∧
    _pretty "55_64" ≠ "55–64" := by
  refine ⟨by decide, by decide⟩

/-! ## C5: zero-division safety of the drop-off computations -/

/-- C5: in the waterfall's steps_data, every transition whose predecessor
count is 0 gets drop-off percentage exactly 0 (the division is guarded, and
over ℚ no NaN or error value exists to propagate); and the
_find_biggest_dropoff loop skips such a transition entirely, leaving its
accumulator untouched. -/
theorem dropoff_zero_predecessor_safe :
    (∀ (rows : List FunnelRow) (prev : Option Nat) (i : Nat),
        i + 1 < rows.length → rows[i]?.map FunnelRow.count = some 0 →
        (waterfall_drop_pcts prev rows)[i + 1]? = some 0) ∧
    (∀ (r : FunnelRow) (rest : List FunnelRow) (lbl : String) (best : ℚ),
        findBiggestAux (r :: rest) lbl best (some 0)
          = findBiggestAux rest lbl best (some r.count)) := by
  constructor
  · intro rows
    induction rows with
    | nil => intro prev i h; simp at h
    | cons r rest ih =>
      intro prev i h hz
      match i with
      | 0 =>
        simp only [List.getElem?_cons_zero, Option.map_some] at hz
        have hz' : r.count = 0 := by simpa using hz
        match rest, h with
        | r2 :: rest2, _ =>
          simp [waterfall_drop_pcts, hz']
      | n + 1 =>
        simp only [List.getElem?_cons_succ] at hz
        have hlen : n + 1 < rest.length := by
          simpa [List.length_cons] using h
        simpa [waterfall_drop_pcts] using ih (some r.count) n hlen hz
  · intro r rest lbl best
    rfl

/-- C5 witness: a funnel whose first step has count 0; the drop-off at the
following step evaluates to 0. -/
theorem dropoff_zero_predecessor_safe_witness :
    (waterfall_drop_pcts none fRowsZero)[1]? = some 0 :=
  dropoff_zero_predecessor_safe.1 fRowsZero none 0 (by decide) (by decide)

/-! ## C10: the two date-range filters -/

/-- C10 counterexample: on a non-empty record set whose every creation
timestamp is null, the dashboard filter returns the set unchanged while the
scheduled-report filter returns the empty set — the two filters are not
extensionally equal, disagreeing exactly where the claim asserts agreement. -/
theorem date_filters_disagree_on_all_null :
    _filter_by_dates [rNull] 0 0 = [rNull] ∧
    filter_by_date [rNull] 0 0 = [] ∧
    ([rNull] : List Record) ≠ [] := by
  refine ⟨by decide, by decide, by decide⟩

/-- C10 (amended): the two filters agree on every record set that is empty
or contains at least one non-null creation timestamp (both then keep exactly
the records whose date lies in the inclusive range); they differ only on a
non-empty all-null record set, which _filter_by_dates returns unchanged and
filter_by_date empties. -/
theorem date_filters_agree_off_all_null
    (df : List Record) (start stop : Int)
    (h : df = [] ∨ ∃ r ∈ df, r.created ≠ none) :
    _filter_by_dates df start stop = filter_by_date df start stop := by
  rcases h with h | ⟨r, hr, hcr⟩
  · subst h; rfl
  · match df, hr with
    | a :: t, hr =>
      have hall : (a :: t).all (fun r => r.created.isNone) = false := by
        cases hA : (a :: t).all (fun r => r.created.isNone) with
        | false => rfl
        | true =>
          have hnone := List.all_eq_true.mp hA r hr
          rw [Option.isNone_iff_eq_none] at hnone
          exact absurd hnone hcr
      simp [_filter_by_dates, filter_by_date, hall]

/-- C10 witness: on a one-record set with a parsed date the two filters
agree. -/
theorem date_filters_agree_off_all_null_witness :
    _filter_by_dates [rDated] 0 10 = filter_by_date [rDated] 0 10 :=
  date_filters_agree_off_all_null [rDated] 0 10
    (Or.inr ⟨rDated, by decide, by decide⟩)

/-! ## C1: monotonicity of step-reach counts -/

/-- C1: for every record set, the step-reach counts of compute_funnel are
non-increasing in step-sequence order: a record whose final rank reaches a
step also reaches every earlier step, so each later reach set is contained
in each earlier one. -/
theorem compute_funnel_counts_nonincreasing (df : List Record) :
    ((compute_funnel df).map FunnelRow.count).Pairwise (fun a b => b ≤ a) := by
  unfold compute_funnel
  cases hE : df.isEmpty with
  | true => simp [hE]
  | false =>
    simp only [hE, Bool.false_eq_true, if_false, List.map_map]
    rw [List.pairwise_map]
    have base : List.Pairwise (fun s t => step_index_at s ≤ step_index_at t)
        QUIZ_STEPS_ORDER := by decide
    refine base.imp ?_
    intro s t hst
    simp only [Function.comp]
    apply List.countP_mono_left
    intro k _ hk
    simp only [decide_eq_true_eq] at hk ⊢
    omega

/-! ## C6: the biggest drop-off statistic -/

/-- The incumbent of the pick fold only grows, and dominates every
candidate seen. -/
theorem pick_ge (ds : List (String × ℚ)) :
    ∀ (lbl : String) (best : ℚ),
      best ≤ (pick ds lbl best).2 ∧ ∀ p ∈ ds, p.2 ≤ (pick ds lbl best).2 := by
  induction ds with
  | nil => intro lbl best; exact ⟨le_refl _, by simp⟩
  | cons hd tl ih =>
    intro lbl best
    obtain ⟨l, dp⟩ := hd
    by_cases hlt : best < dp
    · have heq : pick ((l, dp) :: tl) lbl best = pick tl l dp := by
        simp [pick, hlt]
      rw [heq]
      rcases ih l dp with ⟨h1, h2⟩
      refine ⟨le_trans (le_of_lt hlt) h1, ?_⟩
      intro p hp
      rcases List.mem_cons.mp hp with rfl | hmem
      · exact h1
      · exact h2 p hmem
    · have heq : pick ((l, dp) :: tl) lbl best = pick tl lbl best := by
        simp [pick, hlt]
      rw [heq]
      rcases ih lbl best with ⟨h1, h2⟩
      refine ⟨h1, ?_⟩
      intro p hp
      rcases List.mem_cons.mp hp with rfl | hmem
      · exact le_trans (le_of_not_lt hlt) h1
      · exact h2 p hmem

/-- When no candidate beats the incumbent, the fold returns the incumbent
pair unchanged. -/
theorem pick_stay (ds : List (String × ℚ)) :
    ∀ (lbl : String) (best : ℚ),
      (∀ p ∈ ds, p.2 ≤ best) → pick ds lbl best = (lbl, best) := by
  induction ds with
  | nil => intro lbl best _; rfl
  | cons hd tl ih =>
    intro lbl best h
    obtain ⟨l, dp⟩ := hd
    have hnlt : ¬ best < dp := not_lt.mpr (h (l, dp) (List.mem_cons_self _ _))
    have heq : pick ((l, dp) :: tl) lbl best = pick tl lbl best := by
      simp [pick, hnlt]
    rw [heq]
    exact ih lbl best (fun p hp => h p (List.mem_cons_of_mem _ hp))

/-- When some candidate beats the incumbent, the fold returns the FIRST
candidate attaining the running maximum: every earlier candidate is
strictly below it. -/
theorem pick_first_strict (ds : List (String × ℚ)) :
    ∀ (lbl : String) (best : ℚ), (∃ p ∈ ds, best < p.2) →
      ∃ i, ∃ hi : i < ds.length,
        pick ds lbl best = ((ds.get ⟨i, hi⟩).1, (ds.get ⟨i, hi⟩).2) ∧
        best < (ds.get ⟨i, hi⟩).2 ∧
        ∀ j, (hj : j < i) →
          (ds.get ⟨j, Nat.lt_trans hj hi⟩).2 < (ds.get ⟨i, hi⟩).2 := by
  induction ds with
  | nil => intro lbl best h; simp at h
  | cons hd tl ih =>
    intro lbl best hex
    obtain ⟨l, dp⟩ := hd
    by_cases hlt : best < dp
    · have heq : pick ((l, dp) :: tl) lbl best = pick tl l dp := by
        simp [pick, hlt]
      by_cases htl : ∀ p ∈ tl, p.2 ≤ dp
      · refine ⟨0, by simp, ?_, by simpa using hlt, ?_⟩
        · rw [heq, pick_stay tl l dp htl]; rfl
        · intro j hj; exact absurd hj (Nat.not_lt_zero j)
      · push_neg at htl
        obtain ⟨i, hi, hpk, hgt, hfirst⟩ := ih l dp htl
        refine ⟨i + 1, by simpa using Nat.succ_lt_succ hi, ?_, ?_, ?_⟩
        · rw [heq, hpk]; rfl
        · exact lt_trans hlt hgt
        · intro j hj
          match j, hj with
          | 0, _ => exact hgt
          | j' + 1, hj => exact hfirst j' (Nat.lt_of_succ_lt_succ hj)
    · have heq : pick ((l, dp) :: tl) lbl best = pick tl lbl best := by
        simp [pick, hlt]
      have hex2 : ∃ p ∈ tl, best < p.2 := by
        obtain ⟨p, hp, hbp⟩ := hex
        rcases List.mem_cons.mp hp with rfl | hmem
        · exact absurd hbp hlt
        · exact ⟨p, hmem, hbp⟩
      obtain ⟨i, hi, hpk, hgt, hfirst⟩ := ih lbl best hex2
      refine ⟨i + 1, by simpa using Nat.succ_lt_succ hi, ?_, hgt, ?_⟩
      · rw [heq, hpk]; rfl
      · intro j hj
        match j, hj with
        | 0, _ => exact lt_of_le_of_lt (le_of_not_lt hlt) hgt
        | j' + 1, hj => exact hfirst j' (Nat.lt_of_succ_lt_succ hj)

/-- The _find_biggest_dropoff loop is the pick fold over exactly the
considered transitions. -/
theorem findBiggestAux_eq_pick :
    ∀ (rows : List FunnelRow) (lbl : String) (best : ℚ) (prev : Option Nat),
      findBiggestAux rows lbl best prev
        = pick (dropCandidatesAux prev rows) lbl best := by
  intro rows
  induction rows with
  | nil => intro lbl best prev; cases prev <;> rfl
  | cons r tl ih =>
    intro lbl best prev
    match prev with
    | none =>
      simpa [findBiggestAux, dropCandidatesAux] using ih lbl best (some r.count)
    | some p =>
      by_cases hp : 0 < p
      · by_cases hbd : best < round1 (((p : ℚ) - (r.count : ℚ)) / (p : ℚ) * 100)
        · simp [findBiggestAux, dropCandidatesAux, hp, hbd, pick, ih]
        · simp [findBiggestAux, dropCandidatesAux, hp, hbd, pick, ih]
      · simp [findBiggestAux, dropCandidatesAux, hp, ih]

/-- C6 (amended): over the transitions _find_biggest_dropoff considers
(positive predecessor count, in sequence order), the returned drop bounds
every considered drop-off from above; when some considered drop-off is
strictly positive the function returns exactly the first transition
attaining the maximum (so ties resolve to the earliest); but when every
considered drop-off is non-positive — e.g. a funnel with equal positive
counts, whose maximal drop-off is 0 — it selects no step at all, returning
the empty label and 0 rather than the step with the (zero) maximum that the
unamended claim requires. -/
theorem find_biggest_dropoff_first_positive_argmax (rows : List FunnelRow) :
    (∀ p ∈ dropCandidates rows, p.2 ≤ (find_biggest_dropoff rows).2) ∧
    ((∃ p ∈ dropCandidates rows, 0 < p.2) →
      ∃ i, ∃ hi : i < (dropCandidates rows).length,
        find_biggest_dropoff rows
          = (((dropCandidates rows).get ⟨i, hi⟩).1,
             ((dropCandidates rows).get ⟨i, hi⟩).2) ∧
        ∀ j, (hj : j < i) →
          ((dropCandidates rows).get ⟨j, Nat.lt_trans hj hi⟩).2
            < ((dropCandidates rows).get ⟨i, hi⟩).2) ∧
    ((∀ p ∈ dropCandidates rows, p.2 ≤ 0) →
      find_biggest_dropoff rows = ("", 0)) := by
  have hbr : find_biggest_dropoff rows = pick (dropCandidates rows) "" 0 :=
    findBiggestAux_eq_pick rows "" 0 none
  refine ⟨?_, ?_, ?_⟩
  · intro p hp
    rw [hbr]
    exact (pick_ge (dropCandidates rows) "" 0).2 p hp
  · intro hex
    obtain ⟨i, hi, hpk, _, hfirst⟩ :=
      pick_first_strict (dropCandidates rows) "" 0 hex
    exact ⟨i, hi, by rw [hbr]; exact hpk, hfirst⟩
  · intro hall
    rw [hbr]
    exact pick_stay (dropCandidates rows) "" 0 hall

/-- C6 counterexample: a funnel with equal positive counts has one
considered transition — at "Q2 - Frequency", with drop-off 0, the maximum —
yet _find_biggest_dropoff selects no step (empty label), so the claim as
stated fails at this input. -/
theorem find_biggest_dropoff_flat_counterexample :
    find_biggest_dropoff fRowsFlat = ("", 0) ∧
    dropCandidates fRowsFlat = [("Q2 - Frequency", 0)] ∧
    ("" : String) ≠ "Q2 - Frequency" := by
  have h0 : round1 (0 : ℚ) = 0 := by norm_num [round1]
  refine ⟨?_, ?_, by decide⟩
  · show findBiggestAux fRowsFlat "" 0 none = ("", 0)
    simp [fRowsFlat, findBiggestAux, h0]
  · show dropCandidatesAux none fRowsFlat = [("Q2 - Frequency", 0)]
    simp [fRowsFlat, dropCandidatesAux, h0]

/-- C6 witness: on a funnel losing 75% at its only considered transition,
the returned drop bounds that transition's drop-off. -/
theorem find_biggest_dropoff_first_positive_argmax_witness :
    (75 : ℚ) ≤ (find_biggest_dropoff fRowsDrop).2 := by
  have h75 : round1 (((4 : ℚ) - 1) / 4 * 100) = 75 := by
    norm_num [round1]
  have hcand : dropCandidates fRowsDrop = [("Q2 - Frequency", 75)] := by
    show dropCandidatesAux none fRowsDrop = [("Q2 - Frequency", 75)]
    simp [fRowsDrop, dropCandidatesAux, h75]
  have hmem : ("Q2 - Frequency", (75 : ℚ)) ∈ dropCandidates fRowsDrop := by
    rw [hcand]; simp
  simpa using
    (find_biggest_dropoff_first_positive_argmax fRowsDrop).1
      ("Q2 - Frequency", (75 : ℚ)) hmem

/-! ## C7: distribution totality -/

/-- Every element listed by uniqueInOrder occurs in the underlying list. -/
theorem uniqueInOrder_subset (l : List String) (b : String)
    (h : b ∈ uniqueInOrder l) : b ∈ l := by
  match l with
  | [] => simp [uniqueInOrder] at h
  | a :: rest =>
    rw [uniqueInOrder] at h
    rcases List.mem_cons.mp h with rfl | hmem
    · exact List.mem_cons_self _ _
    · exact List.mem_cons_of_mem _
        (List.mem_of_mem_filter
          (uniqueInOrder_subset (rest.filter (fun x => x ≠ a)) b hmem))
termination_by l.length
decreasing_by simp_wf; exact Nat.lt_succ_of_le (List.length_filter_le _ _)

/-- Summing the multiplicities of the distinct elements recovers the length:
the Counter totals account for every item exactly once. -/
theorem counter_sum (l : List String) :
    ((uniqueInOrder l).map (fun a => l.count a)).sum = l.length := by
  match l with
  | [] => simp [uniqueInOrder]
  | a :: rest =>
    have ih := counter_sum (rest.filter (fun x => x ≠ a))
    rw [uniqueInOrder]
    simp only [List.map_cons, List.sum_cons]
    have hmap :
        (uniqueInOrder (rest.filter (fun x => x ≠ a))).map
            (fun b => (a :: rest).count b)
          = (uniqueInOrder (rest.filter (fun x => x ≠ a))).map
              (fun b => (rest.filter (fun x => x ≠ a)).count b) := by
      apply List.map_congr_left
      intro b hb
      have hbx := uniqueInOrder_subset _ b hb
      have hbne : b ≠ a := by simpa using (List.mem_filter.mp hbx).2
      rw [List.count_cons_of_ne hbne, List.count_filter (by simpa using hbne)]
    rw [hmap, ih, List.count_cons_self]
    have hsplit : rest.count a + (rest.filter (fun x => x ≠ a)).length = rest.length := by
      have hlen := List.length_eq_countP_add_countP (fun x => x == a) rest
      have hq : List.countP (fun x => decide ¬(x == a) = true) rest
          = (rest.filter (fun x => x ≠ a)).length := by
        rw [← List.countP_eq_length_filter]
        apply List.countP_congr
        intro x _
        simp
      rw [← hq]
      have hc : rest.count a = List.countP (fun x => x == a) rest := rfl
      omega
    simp only [List.length_cons]
    omega
termination_by l.length
decreasing_by simp_wf; exact Nat.lt_succ_of_le (List.length_filter_le _ _)

/-- The conditional filterMap of the item loop is filtering then mapping. -/
theorem filterMap_if_pretty (toks : List String) :
    toks.filterMap (fun part => if part ≠ "" then some (_pretty part) else none)
      = (toks.filter (fun part => part ≠ "")).map _pretty := by
  induction toks with
  | nil => rfl
  | cons v rest ih =>
    by_cases hv : v = ""
    · subst hv
      have h1 : List.filterMap
            (fun part => if part ≠ "" then some (_pretty part) else none)
            (("" : String) :: rest)
          = List.filterMap
              (fun part => if part ≠ "" then some (_pretty part) else none) rest := by
        simp [List.filterMap_cons]
      have h2 : List.filter (fun part => part ≠ "") (("" : String) :: rest)
          = List.filter (fun part => part ≠ "") rest := by
        simp [List.filter_cons]
      rw [h1, h2, ih]
    · have h1 : List.filterMap
            (fun part => if part ≠ "" then some (_pretty part) else none) (v :: rest)
          = _pretty v :: List.filterMap
              (fun part => if part ≠ "" then some (_pretty part) else none) rest := by
        simp [List.filterMap_cons, hv]
      have h2 : List.filter (fun part => part ≠ "") (v :: rest)
          = v :: List.filter (fun part => part ≠ "") rest := by
        simp [List.filter_cons, hv]
      rw [h1, h2, List.map_cons, ih]

/-- Empty raw values yield no tokens (the "" value splits into one token
that strips to "" and is filtered out), so skipping them does not change
the total token count. -/
theorem filter_empty_token_sum (l : List String) :
    ((l.filter (fun v => v ≠ "")).map
        (fun v => ((cell_tokens v).filter (fun part => part ≠ "")).length)).sum
      = (l.map
          (fun v => ((cell_tokens v).filter (fun part => part ≠ "")).length)).sum := by
  induction l with
  | nil => rfl
  | cons v rest ih =>
    by_cases hv : v = ""
    · subst hv
      have h2 : List.filter (fun v => v ≠ "") (("" : String) :: rest)
          = List.filter (fun v => v ≠ "") rest := by
        simp [List.filter_cons]
      have hz : ((cell_tokens "").filter (fun part => part ≠ "")).length = 0 := by
        decide
      rw [h2, ih, List.map_cons, List.sum_cons, hz]
      omega
    · have h2 : List.filter (fun v => v ≠ "") (v :: rest)
          = v :: List.filter (fun v => v ≠ "") rest := by
        simp [List.filter_cons, hv]
      rw [h2, List.map_cons, List.map_cons, List.sum_cons, List.sum_cons, ih]

/-- C7: for every record set and column, the counts in the answer
distribution sum to exactly the number of non-empty stripped
comma-separated tokens over the column's non-null raw values — null values,
empty values and empty tokens contribute nothing (no blank category
exists). -/
theorem answer_distribution_totality (df : List Record) (col : String) :
    ((compute_answer_distribution (df_col df col)).map Prod.snd).sum
      = total_nonempty_tokens (df_col df col) := by
  unfold compute_answer_distribution total_nonempty_tokens
  set column := df_col df col
  set vals := column.filterMap id with hvals
  set items := (vals.filter (fun v => v ≠ "")).flatMap (fun v =>
    (cell_tokens v).filterMap (fun part =>
      if part ≠ "" then some (_pretty part) else none)) with hitems
  have hperm : ((counter items).mergeSort (fun a b => b.2 ≤ a.2)).Perm (counter items) :=
    List.mergeSort_perm _ _
  have hsum1 : (((counter items).mergeSort (fun a b => b.2 ≤ a.2)).map Prod.snd).sum
      = ((counter items).map Prod.snd).sum :=
    (hperm.map Prod.snd).sum_eq
  have hsum2 : ((counter items).map Prod.snd).sum = items.length := by
    unfold counter
    rw [List.map_map]
    exact counter_sum items
  rw [hsum1, hsum2]
  have hlen : items.length
      = ((vals.filter (fun v => v ≠ "")).map
          (fun v => ((cell_tokens v).filter (fun part => part ≠ "")).length)).sum := by
    rw [hitems, List.length_flatMap]
    congr 1
    apply List.map_congr_left
    intro v _
    simp only [Function.comp]
    rw [filterMap_if_pretty, List.length_map]
  rw [hlen, filter_empty_token_sum]

/-! ## C9: totality of the record normalizer -/

/-- Bind of a successful Except computation. -/
theorem exceptOk_bind {α β : Type} (a : α) (f : α → Except String β) :
    (Except.ok a >>= f) = f a := rfl

/-- The answer loop on a dict never fails and records each key's stored
value or the empty-string default. -/
theorem getAnswers_dict (aes : List (String × JVal)) :
    ∀ ks : List String,
      getAnswers (.dict aes) ks
        = .ok (ks.map (fun qk => (qk,
            match aes.lookup qk with
            | some x => x
            | none => JVal.str ""))) := by
  intro ks
  induction ks with
  | nil => rfl
  | cons k rest ih =>
    simp [getAnswers, pyGet, exceptOk_bind, ih]

/-- Evaluation of the normalizer on a profile whose attributes and
properties are dicts (one of them possibly defaulted): every field is the
stored value or its documented default. -/
theorem profile_to_row_eq (pes aes pes2 : List (String × JVal))
    (hA : (match pes.lookup "attributes" with
           | some x => x
           | none => JVal.dict []) = .dict aes)
    (hP : (match aes.lookup "properties" with
           | some x => x
           | none => JVal.dict []) = .dict pes2) :
    profile_to_row (.dict pes) = Except.ok
      { email := match aes.lookup "email" with
                 | some x => x
                 | none => JVal.str ""
        created := match aes.lookup "created" with
                   | some x => x
                   | none => JVal.str ""
        quiz_completed := match pes2.lookup "Quiz Completed" with
                          | some x => x
                          | none => JVal.bool false
        quiz_completed_at := match pes2.lookup "quiz_completed_at" with
                             | some x => x
                             | none => JVal.str ""
        current_step := match pes2.lookup "quiz_current_step" with
                        | some x => x
                        | none => JVal.str ""
        answers := QUIZ_Q_KEYS.map (fun qk => (qk,
          match pes2.lookup qk with
          | some x => x
          | none => JVal.str "")) } := by
  unfold profile_to_row
  simp only [pyGet, hA, hP, exceptOk_bind, getAnswers_dict]

/-- C9 counterexample: a raw profile whose "attributes" entry is a string
makes the normalizer raise (AttributeError on attrs.get), so the claim's
"never raises, no matter which nested structures are malformed at any
depth" fails at this input. -/
theorem profile_normalizer_raises_on_malformed :
    profile_to_row pMalformed = Except.error "AttributeError" := rfl

/-- C9 (amended): on every raw profile whose nested structures, when
present, are dictionaries — in particular whenever they are missing at any
depth — the normalizer succeeds without raising; a profile with no usable
nesting yields the fully defaulted row (empty strings for text, false for
the completion flag), and the subsequent timestamp coercion turns the
empty-string default into null (NaT).  A present non-dict nested structure,
however, raises. -/
theorem profile_normalizer_total_on_well_shaped :
    (∀ p : JVal, profile_well_shaped p = true →
        ∃ row, profile_to_row p = Except.ok row) ∧
    profile_to_row (.dict []) = Except.ok default_raw_row ∧
    to_datetime_coerce (.str "") = none := by
  refine ⟨?_, rfl, rfl⟩
  intro p hp
  match p with
  | .null => simp [profile_well_shaped] at hp
  | .str s => simp [profile_well_shaped] at hp
  | .bool b => simp [profile_well_shaped] at hp
  | .num n => simp [profile_well_shaped] at hp
  | .arr xs => simp [profile_well_shaped] at hp
  | .dict pes =>
    simp only [profile_well_shaped] at hp
    cases hla : pes.lookup "attributes" with
    | none =>
      exact ⟨_, profile_to_row_eq pes [] [] (by rw [hla]) rfl⟩
    | some a =>
      rw [hla] at hp
      cases a with
      | dict aes =>
        have hp2 : (match aes.lookup "properties" with
            | none => true
            | some (JVal.dict _) => true
            | some _ => false) = true := by simpa using hp
        cases hlp : aes.lookup "properties" with
        | none =>
          exact ⟨_, profile_to_row_eq pes aes [] (by rw [hla]) (by rw [hlp])⟩
        | some pr =>
          rw [hlp] at hp2
          cases pr with
          | dict pes2 =>
            exact ⟨_, profile_to_row_eq pes aes pes2 (by rw [hla]) (by rw [hlp])⟩
          | null => simp at hp2
          | str s2 => simp at hp2
          | bool b2 => simp at hp2
          | num n2 => simp at hp2
          | arr xs2 => simp at hp2
      | null => simp at hp
      | str s2 => simp at hp
      | bool b2 => simp at hp
      | num n2 => simp at hp
      | arr xs2 => simp at hp

/-- C9 witness: a concrete profile with a well-shaped attributes dict (and
no properties at all) normalizes successfully. -/
theorem profile_normalizer_total_on_well_shaped_witness :
    ∃ row, profile_to_row pSmall = Except.ok row :=
  profile_normalizer_total_on_well_shaped.1 pSmall (by decide)
